import Mathlib

/-!
Verification of the route-group / snet layer of the skywire repository.

The `Network` dial/listen dispatch is embedded from `pkg/snet/network.go`.
The `RouteGroup` stream operations (`Read`, `Write`, `Close`,
`handleClosePacket`, address projections) are not present in the source
tree — only their tests are — so they are modelled from the specification
(spec sections 3, 4.1 and 5), as indicated on each definition.
Bytes are modelled as `Nat`; payloads as `List Nat`.
-/

namespace Skywire

/-- Modelled from the spec: a (public-key, port) endpoint; public keys are
modelled as `Nat` identifiers. The underlying `routing.Addr` type is not in
the source tree. -/
structure Addr where
  pk : Nat
  port : Nat
deriving DecidableEq

/-- Modelled from the spec: `routing.RouteDescriptor`, identifying a logical
flow by its two endpoints (spec section 3). Missing from the source tree. -/
structure RouteDescriptor where
  src : Addr
  dst : Addr
deriving DecidableEq

/-- Modelled from the spec: `RouteDescriptor.Invert` swaps source and
destination (spec section 3). -/
def RouteDescriptor.invert (d : RouteDescriptor) : RouteDescriptor :=
  { src := d.dst, dst := d.src }

/-- Modelled from the spec: `routing.Rule` in its Forward variant
(spec section 3); route and transport identifiers are `Nat`. Missing from
the source tree. -/
structure ForwardRule where
  keepAlive : Nat
  localRouteID : Nat
  remoteRouteID : Nat
  transportID : Nat
  srcPK : Nat
  dstPK : Nat
  srcPort : Nat
  dstPort : Nat
deriving DecidableEq

/-- Modelled from the spec: on-wire packet type tag (spec section 3). -/
inductive PacketType where
  | dataPkt
  | closePkt
  | keepAlivePkt
deriving DecidableEq

/-- Modelled from the spec: the on-wire packet `{type, routeID, size,
payload}` with the invariant `size = payload.length` maintained by the
construction helpers (spec sections 3 and 6). -/
structure Packet where
  ptype : PacketType
  routeID : Nat
  size : Nat
  payload : List Nat
deriving DecidableEq

/-- Modelled from the spec: construction of an outbound Data packet stamped
with the rule's remote route identifier (spec section 4.2). -/
def mkDataPacket (remoteRouteID : Nat) (payload : List Nat) : Packet :=
  { ptype := .dataPkt, routeID := remoteRouteID, size := payload.length, payload := payload }

/-- Modelled from the spec: construction of an outbound Close packet; Close
packets carry a single close-code byte as payload (spec section 6). -/
def mkClosePacket (remoteRouteID : Nat) (code : Nat) : Packet :=
  { ptype := .closePkt, routeID := remoteRouteID, size := 1, payload := [code] }

/-- Modelled from the spec: the three lifecycle states of a route group
(spec section 4.1). -/
inductive Lifecycle where
  | lcOpen
  | lcHalfClosedRemote
  | lcClosed
deriving DecidableEq

/-- Modelled from the spec: the route-group state (spec section 3).
`tps` and `fwd` are the index-paired transport and rule slots of the path
list (the tests manipulate them as the parallel slices `rg.tps` / `rg.fwd`);
a transport slot may be empty (`none`) for a path that became unusable.
`readQueue` is the inbound payload queue, `doneFired` the done signal. -/
structure RouteGroup where
  desc : RouteDescriptor
  tps : List (Option Nat)
  fwd : List ForwardRule
  readQueue : List (List Nat)
  lifecycle : Lifecycle
  doneFired : Bool
  closeCode : Nat
deriving DecidableEq

/-- Modelled from the spec: construction of a fresh route group from a
descriptor; paths are appended later (spec section 3, Lifecycle). -/
def newRouteGroup (desc : RouteDescriptor) : RouteGroup :=
  { desc := desc, tps := [], fwd := [], readQueue := [], lifecycle := .lcOpen,
    doneFired := false, closeCode := 0 }

/-- Modelled from the spec: the observable fully-closed query
(spec section 6, route establishment contract). -/
def RouteGroup.isClosed (rg : RouteGroup) : Bool :=
  rg.lifecycle = .lcClosed

/-- Modelled from the spec: `LocalAddr` is a pure projection of the
descriptor's destination (spec sections 3 and 4.1). -/
def RouteGroup.localAddr (rg : RouteGroup) : Addr :=
  rg.desc.dst

/-- Modelled from the spec: `RemoteAddr` is a pure projection of the
descriptor's source (spec sections 3 and 4.1). -/
def RouteGroup.remoteAddr (rg : RouteGroup) : Addr :=
  rg.desc.src

/-- Modelled from the spec: the usable `(transport, rule)` pairs of the
index-paired path list, in order — the pairs whose transport slot is
non-empty (spec sections 3 and 4.1). -/
def usablePaths : List (Option Nat) → List ForwardRule → List (Nat × ForwardRule)
  | some t :: ts, r :: rs => (t, r) :: usablePaths ts rs
  | none :: ts, _ :: rs => usablePaths ts rs
  | _, _ => []

/-- Modelled from the spec: the distinct Write error values
(spec sections 4.1 and 7). -/
inductive WriteErr where
  | errClosedPipe
  | errNoTransports
  | errNoRules
  | errBadTransport
deriving DecidableEq

/-- Modelled from the spec: `RouteGroup.Write` (spec section 4.1).
Returns the byte count together with the packet sent (if any) and the
transport it was sent through; errors follow the spec's precedence:
zero-length buffers return immediately, a closed group rejects the write
(section 4.1 Close: writes after Closed fail with a closed-connection
error), then empty `tps` → no transports, empty `fwd` → no rules, and a
path list with every transport slot empty → bad transport. On the first
usable pair a Data packet is built from that pair's rule. -/
def RouteGroup.write (rg : RouteGroup) (buf : List Nat) :
    Except WriteErr (Nat × Option (Nat × Packet)) :=
  if buf = [] then .ok (0, none)
  else if rg.lifecycle = .lcClosed then .error .errClosedPipe
  else if rg.tps = [] then .error .errNoTransports
  else if rg.fwd = [] then .error .errNoRules
  else
    match (usablePaths rg.tps rg.fwd).head? with
    | none => .error .errBadTransport
    | some (t, r) => .ok (buf.length, some (t, mkDataPacket r.remoteRouteID buf))

/-- Modelled from the spec: the outcome of a Read call that returned —
either bytes copied from the head of the queue (no error; the returned
count is the length of `bs`) or the end-of-stream signal `(0, io.EOF)`
(spec sections 4.1 and 7). -/
inductive ReadRes where
  | bytes (bs : List Nat)
  | eof
deriving DecidableEq

/-- Modelled from the spec: `RouteGroup.Read` over a caller buffer of
length `bufLen` (spec section 4.1). A zero-length buffer returns
immediately without touching the queue; otherwise the caller suspends
until data is queued or the done signal has fired (`none` = the call
blocks). A head payload longer than the buffer is consumed partially,
the remainder staying at the head of the queue; once done has fired and
the queue is empty the call returns end-of-stream. -/
def RouteGroup.read (rg : RouteGroup) (bufLen : Nat) : Option (RouteGroup × ReadRes) :=
  if bufLen = 0 then some (rg, .bytes [])
  else
    match rg.readQueue with
    | [] => if rg.doneFired then some (rg, .eof) else none
    | head :: rest =>
      if head.length ≤ bufLen then
        some ({ rg with readQueue := rest }, .bytes head)
      else
        some ({ rg with readQueue := head.drop bufLen :: rest }, .bytes (head.take bufLen))

/-- Modelled from the spec: the semantics of Go's `copy(dst, src)` —
copies `min (len src) (len dst)` bytes into the front of `dst`, leaving
the rest of `dst` unchanged; returns the new contents and the count. -/
def goCopy (dst src : List Nat) : List Nat × Nat :=
  let k := min src.length dst.length
  (src.take k ++ dst.drop k, k)

/-- Modelled from the spec: `RouteGroup.Read` including its effect on the
caller's buffer. Returns `(state, n, buffer contents after the call,
end-of-stream flag)`; `none` means the call blocks (spec section 4.1). -/
def RouteGroup.readInto (rg : RouteGroup) (buf : List Nat) :
    Option (RouteGroup × Nat × List Nat × Bool) :=
  match rg.read buf.length with
  | none => none
  | some (rg', .eof) => some (rg', 0, buf, true)
  | some (rg', .bytes bs) =>
    let c := goCopy buf bs
    some (rg', c.2, c.1, false)

/-- Modelled from the spec: `RouteGroup.Close(code)` (spec section 4.1).
Idempotent after Closed; otherwise sends a Close packet carrying `code`
over every usable pair (transports are modelled reliable, and per the
spec local teardown always completes, so the error component is always
`none`), transitions to Closed, fires the done signal and releases all
paths. Returns `(new state, sent close packets, error)`. -/
def RouteGroup.close (rg : RouteGroup) (code : Nat) :
    RouteGroup × List (Nat × Packet) × Option Unit :=
  if rg.lifecycle = .lcClosed then (rg, [], none)
  else
    ({ rg with lifecycle := .lcClosed, doneFired := true, closeCode := code,
               tps := [], fwd := [] },
     (usablePaths rg.tps rg.fwd).map (fun p => (p.1, mkClosePacket p.2.remoteRouteID code)),
     none)

/-- Modelled from the spec: `RouteGroup.handleClosePacket(code)`
(spec section 4.1). From Open it transitions to HalfClosedRemote and
fires the done signal without releasing paths or reaching Closed; from
any other state it is an idempotent no-op. -/
def RouteGroup.handleClosePacket (rg : RouteGroup) (code : Nat) : RouteGroup :=
  match rg.lifecycle with
  | .lcOpen =>
    { rg with lifecycle := .lcHalfClosedRemote, doneFired := true, closeCode := code }
  | _ => rg

/-- Modelled from the spec: the dispatcher delivering an inbound Data
payload into a route group's queue; an enqueue after delivery has been
finalized (done signal fired) is dropped silently (spec section 5). -/
def RouteGroup.deliverData (rg : RouteGroup) (payload : List Nat) : RouteGroup :=
  if rg.doneFired then rg
  else { rg with readQueue := rg.readQueue ++ [payload] }

/-! The `snet.Network` dial/listen dispatch, embedded from
`pkg/snet/network.go` (`Network.Dial`, `Network.Listen`). Only the parts
the dispatch inspects are modelled: the network-type string, and the key
set of the `clients.Direct` map. -/

/-- The dmsg network-type string (`dmsg.Type`). -/
def dmsgType : String := "dmsg"

/-- The `snet.Network` as seen by the `Dial`/`Listen` dispatch: the keys
of its `clients.Direct` map. -/
structure Network where
  directKeys : List String
deriving DecidableEq

/-- Outcome of `Network.Dial`: which external client call is attempted,
or the distinguished unknown-network error with no attempt made. -/
inductive DialRes where
  | dmsgDial (pk port : Nat)
  | directDial (key : String) (pk port : Nat)
  | unknownNetworkErr
deriving DecidableEq

/-- Embeds `Network.Dial` from `pkg/snet/network.go`: the `dmsg.Type`
case dials through the dmsg client; the default case looks the type up in
`clients.Direct` and dials through that client if present, otherwise
returns `ErrUnknownNetwork` without attempting any connection. -/
def Network.dial (n : Network) (network : String) (pk port : Nat) : DialRes :=
  if network = dmsgType then .dmsgDial pk port
  else if n.directKeys.contains network then .directDial network pk port
  else .unknownNetworkErr

/-- Outcome of `Network.Listen`: which external client call is attempted,
or the distinguished unknown-network error with no listener registered. -/
inductive ListenRes where
  | dmsgListen (port : Nat)
  | directListen (key : String) (port : Nat)
  | unknownNetworkErrL
deriving DecidableEq

/-- Embeds `Network.Listen` from `pkg/snet/network.go`: the `dmsg.Type`
case listens through the dmsg client; the default case looks the type up
in `clients.Direct` and listens through that client if present, otherwise
returns `ErrUnknownNetwork` without registering any listener. -/
def Network.listen (n : Network) (network : String) (port : Nat) : ListenRes :=
  if network = dmsgType then .dmsgListen port
  else if n.directKeys.contains network then .directListen network port
  else .unknownNetworkErrL

/-! Sample data shared by the concrete witnesses. -/

/-- Sample route descriptor used by concrete witnesses. -/
def sampleDesc : RouteDescriptor :=
  { src := { pk := 1, port := 10 }, dst := { pk := 2, port := 20 } }

/-- Sample forward rule used by concrete witnesses. -/
def sampleRule : ForwardRule :=
  { keepAlive := 3600, localRouteID := 1, remoteRouteID := 2, transportID := 7,
    srcPK := 1, dstPK := 2, srcPort := 10, dstPort := 20 }

/-! Helper lemmas. -/

/-- A path list whose transport slots are all empty has no usable pairs. -/
theorem usablePaths_eq_nil_of_all_none (tps : List (Option Nat)) (fwd : List ForwardRule)
    (h : ∀ t ∈ tps, t = none) : usablePaths tps fwd = [] := by
  induction tps generalizing fwd with
  | nil => cases fwd <;> rfl
  | cons t ts ih =>
    have ht : t = none := h t (List.mem_cons_self t ts)
    subst ht
    cases fwd with
    | nil => rfl
    | cons r rs =>
      have := ih rs (fun x hx => h x (List.mem_cons_of_mem _ hx))
      simpa [usablePaths] using this

/-- A successful, packet-producing Write determines its result: the count
is the payload length and the packet is a Data packet carrying the written
buffer, stamped with the remote route id of the first usable pair's rule. -/
theorem write_ok_shape (rg : RouteGroup) (buf : List Nat) (n t : Nat) (pkt : Packet)
    (hw : rg.write buf = .ok (n, some (t, pkt))) :
    n = buf.length ∧ ∃ r, (usablePaths rg.tps rg.fwd).head? = some (t, r) ∧
      pkt = mkDataPacket r.remoteRouteID buf := by
  unfold RouteGroup.write at hw
  by_cases hb : buf = []
  · simp [hb] at hw
  rw [if_neg hb] at hw
  split at hw
  · cases hw
  split at hw
  · cases hw
  split at hw
  · cases hw
  split at hw
  · cases hw
  next t' r heq =>
    rw [Except.ok.injEq, Prod.mk.injEq] at hw
    obtain ⟨rfl, h2⟩ := hw
    rw [Option.some.injEq, Prod.mk.injEq] at h2
    obtain ⟨rfl, rfl⟩ := h2
    exact ⟨rfl, r, heq, rfl⟩

/-! Claim theorems. -/

/-- Claim C1: for route groups with a usable path, a non-trivial
`A.Write(m)` that returns without error, followed by delivery of the sent
packet to a quiescent peer `B` and `B.Read(buf)` with `len(buf) ≥ len(m)`,
returns `n = len(m)` and leaves the first `n` bytes of `buf` equal to `m`
(byte-for-byte delivery). -/
theorem write_read_delivers (A B : RouteGroup) (m buf : List Nat) (n t : Nat) (pkt : Packet)
    (hm : m ≠ []) (hq : B.readQueue = []) (hd : B.doneFired = false)
    (hlen : m.length ≤ buf.length)
    (hw : A.write m = .ok (n, some (t, pkt))) :
    n = m.length ∧ pkt.payload = m ∧
      (B.deliverData pkt.payload).readInto buf =
        some (B, m.length, m ++ buf.drop m.length, false) := by
  obtain ⟨hn, r, _, hpkt⟩ := write_ok_shape A m n t pkt hw
  subst hn hpkt
  refine ⟨rfl, rfl, ?_⟩
  have hbuf : buf.length ≠ 0 := by
    intro h0
    exact hm (List.eq_nil_of_length_eq_zero (Nat.le_antisymm (h0 ▸ hlen) (Nat.zero_le _)))
  obtain ⟨d, tps, fwd, q, l, df, cc⟩ := B
  simp only at hq hd
  subst hq hd
  simp only [RouteGroup.deliverData, RouteGroup.readInto, RouteGroup.read, mkDataPacket,
    Bool.false_eq_true, if_false, List.nil_append, hbuf, if_neg hbuf, hlen, if_pos hlen,
    goCopy]
  have hk : min m.length buf.length = m.length := Nat.min_eq_left hlen
  simp [hk, List.take_of_length_le (Nat.le_refl m.length), List.take_length]

/-- Claim C1 witness: a concrete write of three bytes through a single
usable path, delivered and read back through a four-byte buffer. -/
theorem write_read_delivers_witness :
    (RouteGroup.write
        { desc := sampleDesc, tps := [some 7], fwd := [sampleRule], readQueue := [],
          lifecycle := .lcOpen, doneFired := false, closeCode := 0 } [9, 8, 7] =
      .ok (3, some (7, mkDataPacket 2 [9, 8, 7]))) ∧
    (RouteGroup.readInto
        (RouteGroup.deliverData (newRouteGroup sampleDesc) (mkDataPacket 2 [9, 8, 7]).payload)
        [0, 0, 0, 0] =
      some (newRouteGroup sampleDesc, 3, [9, 8, 7, 0], false)) := by
  refine ⟨by rfl, ?_⟩
  have h := write_read_delivers
    { desc := sampleDesc, tps := [some 7], fwd := [sampleRule], readQueue := [],
      lifecycle := .lcOpen, doneFired := false, closeCode := 0 }
    (newRouteGroup sampleDesc) [9, 8, 7] [0, 0, 0, 0] 3 7 (mkDataPacket 2 [9, 8, 7])
    (by decide) (by rfl) (by rfl) (by decide) (by rfl)
  exact h.2.2

/-- Claim C2: after `A.Close`, `A.isClosed` is true immediately; the peer
`B`, after receiving the Close packet through `handleClosePacket`, has its
done signal fired yet `B.isClosed` stays false until `B` calls its own
`Close`; and receiving a peer close never moves any route group into the
Closed state. -/
theorem close_asymmetry (A B : RouteGroup) (cA cB cB2 : Nat)
    (hB : B.lifecycle = .lcOpen) :
    (A.close cA).1.isClosed = true ∧
    (B.handleClosePacket cB).doneFired = true ∧
    (B.handleClosePacket cB).isClosed = false ∧
    ((B.handleClosePacket cB).close cB2).1.isClosed = true ∧
    (∀ C : RouteGroup, ∀ c : Nat, (C.handleClosePacket c).isClosed = C.isClosed) := by
  refine ⟨?_, ?_, ?_, ?_, ?_⟩
  · by_cases hA : A.lifecycle = .lcClosed <;>
      simp [RouteGroup.close, RouteGroup.isClosed, hA]
  · simp [RouteGroup.handleClosePacket, hB]
  · simp [RouteGroup.handleClosePacket, RouteGroup.isClosed, hB]
  · simp [RouteGroup.handleClosePacket, RouteGroup.close, RouteGroup.isClosed, hB]
  · intro C c
    unfold RouteGroup.handleClosePacket
    cases hC : C.lifecycle <;> simp [RouteGroup.isClosed, hC]

/-- Claim C2 witness: the close asymmetry at a concrete open pair. -/
theorem close_asymmetry_witness :
    ((newRouteGroup sampleDesc).close 0).1.isClosed = true ∧
    ((newRouteGroup sampleDesc).handleClosePacket 1).doneFired = true ∧
    ((newRouteGroup sampleDesc).handleClosePacket 1).isClosed = false ∧
    (((newRouteGroup sampleDesc).handleClosePacket 1).close 2).1.isClosed = true := by
  have h := close_asymmetry (newRouteGroup sampleDesc) (newRouteGroup sampleDesc)
    0 1 2 (by rfl)
  exact ⟨h.1, h.2.1, h.2.2.1, h.2.2.2.1⟩

/-- Claim C3: for a non-closed group and a non-empty buffer, Write
validates path availability in a fixed precedence order with a distinct
error for each shape: empty `tps` → no-transports; non-empty `tps` with
empty `fwd` → no-rules; both non-empty but every transport slot empty →
bad-transport. -/
theorem write_error_precedence (rg : RouteGroup) (buf : List Nat)
    (hbuf : buf ≠ []) (hnc : rg.lifecycle ≠ .lcClosed) :
    (rg.tps = [] → rg.write buf = .error .errNoTransports) ∧
    (rg.tps ≠ [] → rg.fwd = [] → rg.write buf = .error .errNoRules) ∧
    (rg.tps ≠ [] → rg.fwd ≠ [] → (∀ t ∈ rg.tps, t = none) →
      rg.write buf = .error .errBadTransport) := by
  refine ⟨?_, ?_, ?_⟩
  · intro ht
    simp [RouteGroup.write, hbuf, hnc, ht]
  · intro ht hf
    simp [RouteGroup.write, hbuf, hnc, ht, hf]
  · intro ht hf hall
    have hu : usablePaths rg.tps rg.fwd = [] :=
      usablePaths_eq_nil_of_all_none rg.tps rg.fwd hall
    simp [RouteGroup.write, hbuf, hnc, ht, hf, hu]

/-- Claim C3 witness: the three Write failure shapes at concrete groups. -/
theorem write_error_precedence_witness :
    (RouteGroup.write
        { desc := sampleDesc, tps := [], fwd := [], readQueue := [],
          lifecycle := .lcOpen, doneFired := false, closeCode := 0 } [1] =
      .error .errNoTransports) ∧
    (RouteGroup.write
        { desc := sampleDesc, tps := [some 7], fwd := [], readQueue := [],
          lifecycle := .lcOpen, doneFired := false, closeCode := 0 } [1] =
      .error .errNoRules) ∧
    (RouteGroup.write
        { desc := sampleDesc, tps := [none], fwd := [sampleRule], readQueue := [],
          lifecycle := .lcOpen, doneFired := false, closeCode := 0 } [1] =
      .error .errBadTransport) := by
  refine ⟨?_, ?_, ?_⟩
  · exact (write_error_precedence
      { desc := sampleDesc, tps := [], fwd := [], readQueue := [],
        lifecycle := .lcOpen, doneFired := false, closeCode := 0 } [1]
      (by decide) (by decide)).1 rfl
  · exact (write_error_precedence
      { desc := sampleDesc, tps := [some 7], fwd := [], readQueue := [],
        lifecycle := .lcOpen, doneFired := false, closeCode := 0 } [1]
      (by decide) (by decide)).2.1 (by decide) rfl
  · exact (write_error_precedence
      { desc := sampleDesc, tps := [none], fwd := [sampleRule], readQueue := [],
        lifecycle := .lcOpen, doneFired := false, closeCode := 0 } [1]
      (by decide) (by decide)).2.2 (by decide) (by decide) (by decide)

/-- Claim C4: once the done signal has fired and the inbound queue is
empty, every Read with a non-empty buffer returns `(0, io.EOF)` — the
end-of-stream signal, not a hard error — leaving the group unchanged. -/
theorem read_after_done_eof (rg : RouteGroup) (buf : List Nat)
    (hdone : rg.doneFired = true) (hq : rg.readQueue = []) (hbuf : buf ≠ []) :
    rg.readInto buf = some (rg, 0, buf, true) := by
  have hlen : buf.length ≠ 0 := by
    intro h0
    exact hbuf (List.eq_nil_of_length_eq_zero h0)
  simp [RouteGroup.readInto, RouteGroup.read, hlen, hq, hdone]

/-- Claim C4 witness: end-of-stream on a concrete drained, done group. -/
theorem read_after_done_eof_witness :
    RouteGroup.readInto
        { desc := sampleDesc, tps := [], fwd := [], readQueue := [],
          lifecycle := .lcHalfClosedRemote, doneFired := true, closeCode := 0 } [5, 6] =
      some ({ desc := sampleDesc, tps := [], fwd := [], readQueue := [],
              lifecycle := .lcHalfClosedRemote, doneFired := true, closeCode := 0 },
            0, [5, 6], true) :=
  read_after_done_eof
    { desc := sampleDesc, tps := [], fwd := [], readQueue := [],
      lifecycle := .lcHalfClosedRemote, doneFired := true, closeCode := 0 }
    [5, 6] rfl rfl (by decide)

/-- Claim C5: when the head payload is longer than the Read buffer, Read
copies exactly the buffer length from the head, returns that count, and
retains the remainder at the head of the queue; the next Read returns
exactly that remainder, and the two reads concatenate back to the original
payload — no byte lost, duplicated or reordered. -/
theorem short_read_exact (rg : RouteGroup) (head : List Nat) (rest : List (List Nat))
    (k : Nat) (hq : rg.readQueue = head :: rest) (hk : k < head.length) :
    rg.read k = some ({ rg with readQueue := head.drop k :: rest }, .bytes (head.take k)) ∧
    ({ rg with readQueue := head.drop k :: rest } : RouteGroup).read (head.length - k) =
      some ({ rg with readQueue := rest }, .bytes (head.drop k)) ∧
    head.take k ++ head.drop k = head := by
  obtain ⟨d, tps, fwd, q, l, df, cc⟩ := rg
  simp only at hq
  subst hq
  refine ⟨?_, ?_, List.take_append_drop k head⟩
  · by_cases hk0 : k = 0
    · subst hk0
      simp [RouteGroup.read]
    · have hnot : ¬ head.length ≤ k := Nat.not_le_of_lt hk
      simp [RouteGroup.read, hk0, hnot]
  · have hpos : head.length - k ≠ 0 := Nat.sub_ne_zero_of_lt hk
    have hlen : (head.drop k).length ≤ head.length - k := by
      simp [List.length_drop]
    simp [RouteGroup.read, hpos, hlen]

/-- Claim C5 witness: a four-byte head read through a two-byte buffer,
then the remainder, at a concrete group. -/
theorem short_read_exact_witness :
    (RouteGroup.read
        { desc := sampleDesc, tps := [], fwd := [], readQueue := [[1, 2, 3, 4], [9]],
          lifecycle := .lcOpen, doneFired := false, closeCode := 0 } 2 =
      some ({ desc := sampleDesc, tps := [], fwd := [], readQueue := [[3, 4], [9]],
              lifecycle := .lcOpen, doneFired := false, closeCode := 0 }, .bytes [1, 2])) ∧
    (RouteGroup.read
        { desc := sampleDesc, tps := [], fwd := [], readQueue := [[3, 4], [9]],
          lifecycle := .lcOpen, doneFired := false, closeCode := 0 } 2 =
      some ({ desc := sampleDesc, tps := [], fwd := [], readQueue := [[9]],
              lifecycle := .lcOpen, doneFired := false, closeCode := 0 }, .bytes [3, 4])) := by
  have h := short_read_exact
    { desc := sampleDesc, tps := [], fwd := [], readQueue := [[1, 2, 3, 4], [9]],
      lifecycle := .lcOpen, doneFired := false, closeCode := 0 }
    [1, 2, 3, 4] [[9]] 2 rfl (by decide)
  exact ⟨h.1, h.2.1⟩

/-- Claim C6: Close is idempotent — for every route group, a second Close
after the group reached Closed returns no error, sends no further Close
packets, and leaves the state untouched (no path released twice). -/
theorem close_idempotent (rg : RouteGroup) (c1 c2 : Nat) :
    (rg.close c1).1.close c2 = ((rg.close c1).1, [], none) := by
  by_cases h : rg.lifecycle = .lcClosed <;>
    simp [RouteGroup.close, h]

/-- Claim C7: for every route group in any state, Read with a zero-length
buffer returns `(0, nil)` at once — not blocked, queue untouched — and
Write with a zero-length buffer returns `(0, nil)` at once, sending
nothing and consulting no path. -/
theorem zero_length_ops (rg : RouteGroup) :
    rg.readInto [] = some (rg, 0, [], false) ∧ rg.write [] = .ok (0, none) := by
  constructor
  · simp [RouteGroup.readInto, RouteGroup.read, goCopy]
  · simp [RouteGroup.write]

/-- Claim C8: `LocalAddr` and `RemoteAddr` are pure projections of the
group's descriptor — destination and source respectively — and the
descriptor is untouched by packet delivery and by the close handshake, so
the projections are stable. -/
theorem addr_projections (rg : RouteGroup) (payload : List Nat) (code : Nat) :
    rg.localAddr = rg.desc.dst ∧ rg.remoteAddr = rg.desc.src ∧
    (rg.deliverData payload).desc = rg.desc ∧
    (rg.handleClosePacket code).desc = rg.desc ∧
    (rg.deliverData payload).localAddr = rg.localAddr ∧
    (rg.handleClosePacket code).remoteAddr = rg.remoteAddr := by
  have hdel : (rg.deliverData payload).desc = rg.desc := by
    unfold RouteGroup.deliverData
    split <;> rfl
  have hhcp : (rg.handleClosePacket code).desc = rg.desc := by
    unfold RouteGroup.handleClosePacket
    split <;> rfl
  exact ⟨rfl, rfl, hdel, hhcp,
    by simp [RouteGroup.localAddr, hdel],
    by simp [RouteGroup.remoteAddr, hhcp]⟩

/-- Claim C9: a Read that returns end-of-stream `(0, io.EOF)` writes
nothing into the caller's buffer — the buffer contents after the call are
exactly the contents before it. -/
theorem eof_read_frame (rg rg' : RouteGroup) (buf buf' : List Nat) (n : Nat)
    (h : rg.readInto buf = some (rg', n, buf', true)) :
    buf' = buf ∧ n = 0 := by
  unfold RouteGroup.readInto at h
  split at h
  · cases h
  · rw [Option.some.injEq] at h
    obtain ⟨-, rfl, rfl, -⟩ := h
    exact ⟨rfl, rfl⟩
  · rw [Option.some.injEq] at h
    obtain ⟨-, -, -, -⟩ := h

/-- Claim C9 witness: the frame condition at a concrete end-of-stream
read over a two-byte buffer. -/
theorem eof_read_frame_witness :
    (RouteGroup.readInto
        { desc := sampleDesc, tps := [], fwd := [], readQueue := [],
          lifecycle := .lcClosed, doneFired := true, closeCode := 0 } [5, 6] =
      some ({ desc := sampleDesc, tps := [], fwd := [], readQueue := [],
              lifecycle := .lcClosed, doneFired := true, closeCode := 0 },
            0, [5, 6], true)) ∧
    ([5, 6] : List Nat) = [5, 6] := by
  refine ⟨by rfl, ?_⟩
  exact (eof_read_frame
    { desc := sampleDesc, tps := [], fwd := [], readQueue := [],
      lifecycle := .lcClosed, doneFired := true, closeCode := 0 }
    { desc := sampleDesc, tps := [], fwd := [], readQueue := [],
      lifecycle := .lcClosed, doneFired := true, closeCode := 0 }
    [5, 6] [5, 6] 0 (by rfl)).1

/-- Claim C10: for every network-type string that is neither the dmsg type
nor a key of the direct-client map, `Network.Dial` and `Network.Listen`
return the distinguished unknown-network error, attempting no connection
and registering no listener. -/
theorem unknown_network_rejected (n : Network) (network : String) (pk port lport : Nat)
    (h1 : network ≠ dmsgType) (h2 : n.directKeys.contains network = false) :
    n.dial network pk port = .unknownNetworkErr ∧
    n.listen network lport = .unknownNetworkErrL := by
  have h2' : network ∉ n.directKeys := by simpa using h2
  constructor
  · simp [Network.dial, h1, h2']
  · simp [Network.listen, h1, h2']

/-- Claim C10 witness: dialing and listening on the unknown type `"tcp"`
against a network holding the three direct client types. -/
theorem unknown_network_rejected_witness :
    Network.dial { directKeys := ["stcp", "stcpr", "sudph"] } "tcp" 1 45 =
      .unknownNetworkErr ∧
    Network.listen { directKeys := ["stcp", "stcpr", "sudph"] } "tcp" 45 =
      .unknownNetworkErrL :=
  unknown_network_rejected { directKeys := ["stcp", "stcpr", "sudph"] } "tcp" 1 45 45
    (by decide) (by decide)

end Skywire
